import Mathlib

/-!
# Model loading of simple-graphics: `parse_model` and `parse_model_fbx`

A shallow embedding of `src/utils/parsers/parsers.cpp`.

* Floating-point scalars are only ever copied by the two routines, so the
  scalar type is a parameter `S`.
* `std::vector` is `List`; `std::array<T, 3>` is `Array3`.
* `unsigned int` is 32 bits wide: `static_cast<unsigned int>` is `% 2 ^ 32`.
* Both routines write through reference parameters and leave by an exception,
  so a run is described by an `Outcome`: how the call ended and what the
  caller's `elements` and `vertices` buffers hold at that moment.  A run that
  performs an access C++ gives no meaning to (an unchecked `operator[]` or a
  pointer read outside its array) is `Outcome.undefined`.
* The timer and the printing to `std::cout` are not modelled.
-/

namespace parser

/-! ## Data -/

/-- The type `std::array<T, 3>`. -/
structure Array3 (α : Type) where
  a0 : α
  a1 : α
  a2 : α
deriving DecidableEq

/-- Checked read `a.at(i)`: `none` stands for `std::out_of_range`. -/
def Array3.at? {α : Type} (a : Array3 α) : Nat → Option α
  | 0 => some a.a0
  | 1 => some a.a1
  | 2 => some a.a2
  | _ => none

/-- Unchecked write `a[k] = x`: `none` when `k` is outside the array, where
the write has no defined behaviour. -/
def Array3.set? {α : Type} (a : Array3 α) (k : Nat) (x : α) : Option (Array3 α) :=
  match k with
  | 0 => some { a with a0 := x }
  | 1 => some { a with a1 := x }
  | 2 => some { a with a2 := x }
  | _ => none

/-- The cast `static_cast<unsigned int>` of a `std::size_t` value, `unsigned int`
being 32 bits wide. -/
def to_unsigned (n : Nat) : Nat := n % 2 ^ 32

/-- Modelled from the spec: `Point` (declared outside the given sources), one
3D point with fields x, y, z. -/
structure Point (S : Type) where
  x : S
  y : S
  z : S
deriving DecidableEq

/-- Modelled from the spec: `Color` (declared outside the given sources), a
flat RGB tint with fields r, g, b. -/
structure Color (S : Type) where
  r : S
  g : S
  b : S
deriving DecidableEq

namespace obj

/-- Modelled from the spec: `parser::obj::TextureCoords` (declared in
`obj_parser.hpp`), one UV pair with fields u, v. -/
structure TextureCoords (S : Type) where
  u : S
  v : S
deriving DecidableEq

/-- One corner of a face: the `vertex_id` and `uv_id` read by `parse_model`. -/
structure FaceVertex where
  vertex_id : Nat
  uv_id : Nat
deriving DecidableEq

/-- Modelled from the spec: `parser::obj::Face` (declared in `obj_parser.hpp`),
a face of three (position-index, texcoord-index) pairs. -/
structure Face where
  vertices : Array3 FaceVertex
deriving DecidableEq

end obj

namespace gl

/-- Modelled from the spec: the `coord` and `color` members of `gl::Vertex`
(declared in `utils/GL.hpp`), three scalars each. -/
structure Vec3 (S : Type) where
  x : S
  y : S
  z : S
deriving DecidableEq

/-- Modelled from the spec: the `uv` member of `gl::Vertex`, two scalars. -/
structure Vec2 (S : Type) where
  x : S
  y : S
deriving DecidableEq

/-- Modelled from the spec: `gl::Vertex` (declared in `utils/GL.hpp`), one GPU
vertex record with fields coord, color, uv. -/
structure Vertex (S : Type) where
  coord : Vec3 S
  color : Vec3 S
  uv : Vec2 S
deriving DecidableEq

/-- Modelled from the spec: `gl::Element` (declared in `utils/GL.hpp`), one GPU
index record: `vertices`, three `unsigned int` indices into the vertex
sequence, all zero when value-initialised. -/
structure Element where
  vertices : Array3 Nat
deriving DecidableEq

end gl

/-- The caller's two output buffers. -/
structure Buffers (S : Type) where
  elements : List gl.Element
  vertices : List (gl.Vertex S)
deriving DecidableEq

/-- How a call ended, with the contents of the caller's buffers. -/
inductive Outcome (S : Type) where
  | returned (elements : List gl.Element) (vertices : List (gl.Vertex S))
  | threw (what : String) (elements : List gl.Element) (vertices : List (gl.Vertex S))
  | undefined
deriving DecidableEq

/-! ## `parse_model` -/

/-- What `parser::obj::parse` (not part of the given sources) left in the
locals `points`, `uvs`, `faces` and `color` of `parse_model`. -/
structure Parsed (S : Type) where
  points : List (Point S)
  uvs : List (obj.TextureCoords S)
  faces : List obj.Face
  color : Color S
deriving DecidableEq

/-- One pass of the inner loop of `parse_model` (lines 23-31): the unchecked
reads `points[vertex_id]` and `uvs[uv_id]`, then the three assignments to
`v.at(i)`.  `none` when a read is outside its vector. -/
def make_vertex {S : Type} (p : Parsed S) (c : obj.FaceVertex) : Option (gl.Vertex S) :=
  match p.points[c.vertex_id]?, p.uvs[c.uv_id]? with
  | some vertex, some uv =>
    some { coord := ⟨vertex.x, vertex.y, vertex.z⟩
           color := ⟨p.color.r, p.color.g, p.color.b⟩
           uv := ⟨uv.u, uv.v⟩ }
  | _, _ => none

/-- The body of `for (const auto &face : faces)` (lines 21-38).  Every member
of every slot of `v` is assigned before `v` is read, so `v` is the three
vertices built for corners 0, 1, 2.  After the insertion the buffer holds at
least 3 vertices, so `vertices.size() - i - 1` does not wrap before the cast. -/
def face_body {S : Type} (p : Parsed S) (b : Buffers S) (face : obj.Face) :
    Option (Buffers S) :=
  match make_vertex p face.vertices.a0, make_vertex p face.vertices.a1,
      make_vertex p face.vertices.a2 with
  | some v0, some v1, some v2 =>
    let vertices := b.vertices ++ [v0, v1, v2]
    let e : gl.Element :=
      ⟨⟨to_unsigned (vertices.length - 0 - 1), to_unsigned (vertices.length - 1 - 1),
        to_unsigned (vertices.length - 2 - 1)⟩⟩
    some ⟨b.elements ++ [e], vertices⟩
  | _, _, _ => none

/-- The loop `for (const auto &face : faces)`. -/
def face_loop {S : Type} (p : Parsed S) : List obj.Face → Buffers S → Option (Buffers S)
  | [], b => some b
  | face :: rest, b =>
    match face_body p b face with
    | some b' => face_loop p rest b'
    | none => none

/-- The routine `parse_model` from line 20 on, given what `parser::obj::parse`
produced. -/
def parse_model {S : Type} (p : Parsed S) (elements : List gl.Element)
    (vertices : List (gl.Vertex S)) : Outcome S :=
  match face_loop p p.faces ⟨elements, vertices⟩ with
  | some b => Outcome.threw "Exit!" b.elements b.vertices
  | none => Outcome.undefined

/-! ## `parse_model_fbx` -/

/-- The type `aiVector3D`. -/
structure aiVector3D (S : Type) where
  x : S
  y : S
  z : S
deriving DecidableEq

/-- The type `aiColor3D`. -/
structure aiColor3D (S : Type) where
  r : S
  g : S
  b : S
deriving DecidableEq

/-- The type `aiFace`: `mNumIndices` is the length of `mIndices`. -/
structure aiFace where
  mIndices : List Nat
deriving DecidableEq

/-- The type `aiMaterial`, reduced to what `Get(AI_MATKEY_COLOR_DIFFUSE, color)` does:
`some c` when the call returns `AI_SUCCESS` and leaves `c` in `color`, `none`
when it returns anything else. -/
structure aiMaterial (S : Type) where
  diffuse : Option (aiColor3D S)
deriving DecidableEq

/-- The type `aiMesh`: `mNumFaces` and `mNumVertices` are the lengths of `mFaces` and
`mVertices`; `mTextureCoords0` is `mTextureCoords[0]`, `none` for a null
pointer. -/
structure aiMesh (S : Type) where
  mFaces : List aiFace
  mVertices : List (aiVector3D S)
  mTextureCoords0 : Option (List (aiVector3D S))
  mMaterialIndex : Nat
deriving DecidableEq

/-- The type `aiScene`: `mNumMeshes` is the length of `mMeshes`. -/
structure aiScene (S : Type) where
  mMeshes : List (aiMesh S)
  mMaterials : List (aiMaterial S)
deriving DecidableEq

/-- How a loop of `parse_model_fbx` is left: it falls through to the next
statement, an exception leaves the routine, or the behaviour is undefined. -/
inductive Step (S : Type) where
  | next (b : Buffers S)
  | threw (what : String) (b : Buffers S)
  | undefined
deriving DecidableEq

/-- The loop `for (k < face.mNumIndices) e.vertices[k] = face.mIndices[k]`
(lines 65-67), from index `k` on. -/
def fill_element : Nat → List Nat → Array3 Nat → Option (Array3 Nat)
  | _, [], e => some e
  | k, index :: rest, e =>
    match e.set? k index with
    | some e' => fill_element (k + 1) rest e'
    | none => none

/-- Lines 64-67: a value-initialised `gl::Element` (all zero) filled from the
indices of the face. -/
def make_element (face : aiFace) : Option gl.Element :=
  match fill_element 0 face.mIndices ⟨0, 0, 0⟩ with
  | some e => some ⟨e⟩
  | none => none

/-- The loop over the faces of one mesh (lines 62-69). -/
def fbx_face_loop : List aiFace → List gl.Element → Option (List gl.Element)
  | [], elements => some elements
  | face :: rest, elements =>
    match make_element face with
    | some e => fbx_face_loop rest (elements ++ [e])
    | none => none

/-- The loop over the vertices of one mesh (lines 71-86), from vertex `j` on;
the list holds `mVertices[j]`, `mVertices[j + 1]`, ... -/
def fbx_vertex_loop {S : Type} (scene : aiScene S) (mesh : aiMesh S) :
    Nat → List (aiVector3D S) → Buffers S → Step S
  | _, [], b => Step.next b
  | j, point :: rest, b =>
    match mesh.mTextureCoords0 with
    | none => Step.undefined
    | some channel =>
      match channel[j]? with
      | none => Step.undefined
      | some tex =>
        match scene.mMaterials[mesh.mMaterialIndex]? with
        | none => Step.undefined
        | some material =>
          match material.diffuse with
          | none => Step.threw "Error accesssing diffuse color of a material!" b
          | some color =>
            fbx_vertex_loop scene mesh (j + 1) rest
              ⟨b.elements,
                b.vertices ++ [{ coord := ⟨point.x, point.y, point.z⟩
                                 color := ⟨color.r, color.g, color.b⟩
                                 uv := ⟨tex.x, tex.y⟩ }]⟩

/-- The body of the loop over meshes (lines 60-86). -/
def mesh_body {S : Type} (scene : aiScene S) (b : Buffers S) (mesh : aiMesh S) : Step S :=
  match fbx_face_loop mesh.mFaces b.elements with
  | none => Step.undefined
  | some elements => fbx_vertex_loop scene mesh 0 mesh.mVertices ⟨elements, b.vertices⟩

/-- The loop over the meshes of the scene (lines 59-87). -/
def mesh_loop {S : Type} (scene : aiScene S) : List (aiMesh S) → Buffers S → Step S
  | [], b => Step.next b
  | mesh :: rest, b =>
    match mesh_body scene b mesh with
    | Step.next b' => mesh_loop scene rest b'
    | Step.threw what b' => Step.threw what b'
    | Step.undefined => Step.undefined

/-- The routine `parse_model_fbx`, given what `importer.ReadFileFromMemory`
returned: `Except.error s` for a null scene with `GetErrorString()` equal to
`s`, `Except.ok scene` otherwise. -/
def parse_model_fbx {S : Type} (imported : Except String (aiScene S))
    (elements : List gl.Element) (vertices : List (gl.Vertex S)) : Outcome S :=
  match imported with
  | Except.error error => Outcome.threw error elements vertices
  | Except.ok scene =>
    match mesh_loop scene scene.mMeshes ⟨elements, vertices⟩ with
    | Step.next b => Outcome.threw "Exit!" b.elements b.vertices
    | Step.threw what b => Outcome.threw what b.elements b.vertices
    | Step.undefined => Outcome.undefined

/-! ## Well-formedness of the inputs -/

/-- Both indices of a corner are positions of the pools. -/
def CornerInRange {S : Type} (p : Parsed S) (c : obj.FaceVertex) : Prop :=
  c.vertex_id < p.points.length ∧ c.uv_id < p.uvs.length

/-- The three corners of a face are in range. -/
def FaceInRange {S : Type} (p : Parsed S) (face : obj.Face) : Prop :=
  CornerInRange p face.vertices.a0 ∧ CornerInRange p face.vertices.a1 ∧
    CornerInRange p face.vertices.a2

/-- Every index of every face is a position of its pool. -/
def InRange {S : Type} (p : Parsed S) : Prop :=
  ∀ face ∈ p.faces, FaceInRange p face

instance {S : Type} (p : Parsed S) (c : obj.FaceVertex) : Decidable (CornerInRange p c) := by
  unfold CornerInRange; infer_instance

instance {S : Type} (p : Parsed S) (face : obj.Face) : Decidable (FaceInRange p face) := by
  unfold FaceInRange; infer_instance

instance {S : Type} (p : Parsed S) : Decidable (InRange p) := by
  unfold InRange; infer_instance

/-- The record `parse_model` builds when the vertex buffer holds `n + 3`
vertices: the last three positions, highest first, each cast to
`unsigned int`. -/
def tail_element (n : Nat) : gl.Element :=
  ⟨⟨to_unsigned (n + 2), to_unsigned (n + 1), to_unsigned n⟩⟩

/-- The record `parse_model_fbx` builds for a face of at most 3 indices: the
indices of the face in order, then zero in every slot the face does not
fill. -/
def pad (face : aiFace) : gl.Element :=
  ⟨⟨face.mIndices.getD 0 0, face.mIndices.getD 1 0, face.mIndices.getD 2 0⟩⟩

/-- The result of the diffuse-color lookup made for a mesh (lines 74-77):
`none` when the material index is outside `mMaterials` or `Get` does not
return `AI_SUCCESS`. -/
def diffuse_of {S : Type} (scene : aiScene S) (mesh : aiMesh S) : Option (aiColor3D S) :=
  match scene.mMaterials[mesh.mMaterialIndex]? with
  | some material => material.diffuse
  | none => none

/-- The diffuse-color lookup made for the mesh fails: its material index names
a material, and `Get` on that material does not return `AI_SUCCESS`. -/
def LookupFails {S : Type} (scene : aiScene S) (mesh : aiMesh S) : Prop :=
  ∃ material, scene.mMaterials[mesh.mMaterialIndex]? = some material ∧ material.diffuse = none

/-- The mesh is processed to its end: every face has at most 3 indices and,
unless the mesh has no vertices, texture channel 0 has an entry for every
vertex and the diffuse-color lookup succeeds. -/
def MeshLoads {S : Type} (scene : aiScene S) (mesh : aiMesh S) : Prop :=
  (∀ face ∈ mesh.mFaces, face.mIndices.length ≤ 3) ∧
  mesh.mVertices.length ≤ (mesh.mTextureCoords0.getD []).length ∧
  (mesh.mVertices.length = 0 ∨ (diffuse_of scene mesh).isSome = true)

instance {S : Type} (scene : aiScene S) (mesh : aiMesh S) : Decidable (MeshLoads scene mesh) := by
  unfold MeshLoads; infer_instance

/-- Every mesh of the scene is processed to its end. -/
def SceneLoads {S : Type} (scene : aiScene S) : Prop :=
  ∀ mesh ∈ scene.mMeshes, MeshLoads scene mesh

instance {S : Type} (scene : aiScene S) : Decidable (SceneLoads scene) := by
  unfold SceneLoads; infer_instance

/-- All faces of a list of meshes, in processing order. -/
def all_faces {S : Type} (meshes : List (aiMesh S)) : List aiFace :=
  meshes.flatMap aiMesh.mFaces

/-- The number of vertices of a list of meshes. -/
def vertex_count {S : Type} (meshes : List (aiMesh S)) : Nat :=
  (meshes.map (fun mesh => mesh.mVertices.length)).sum

/-- The buffers `b'` are the buffers `b` with records appended. -/
def Extends {S : Type} (b b' : Buffers S) : Prop :=
  (∃ te, b'.elements = b.elements ++ te) ∧ ∃ tv, b'.vertices = b.vertices ++ tv

/-- What every loop of `parse_model_fbx` guarantees when started on `b`: it
only appends to the buffers, and the only exception it raises is the one of
the diffuse-color lookup. -/
def Traces {S : Type} (b : Buffers S) : Step S → Prop
  | Step.next b' => Extends b b'
  | Step.threw what b' => what = "Error accesssing diffuse color of a material!" ∧ Extends b b'
  | Step.undefined => True

/-! ## Sample inputs -/

/-- One triangle: faces `[(0,0),(1,1),(2,2)]` over positions
`[(0,0,0),(1,0,0),(0,1,0)]`, texcoords `[(0,0),(1,0),(0,1)]`, color `(1,1,1)`. -/
def triangle : Parsed Int :=
  { points := [⟨0, 0, 0⟩, ⟨1, 0, 0⟩, ⟨0, 1, 0⟩]
    uvs := [⟨0, 0⟩, ⟨1, 0⟩, ⟨0, 1⟩]
    faces := [⟨⟨⟨0, 0⟩, ⟨1, 1⟩, ⟨2, 2⟩⟩⟩]
    color := ⟨1, 1, 1⟩ }

/-- The same triangle listed twice: two faces with identical indices. -/
def doubled : Parsed Int :=
  { triangle with faces := triangle.faces ++ triangle.faces }

/-- A pool without faces. -/
def no_faces : Parsed Int :=
  { triangle with faces := [] }

/-- A face whose third corner names position 3 of a pool of 3 points. -/
def dangling : Parsed Int :=
  { triangle with faces := [⟨⟨⟨0, 0⟩, ⟨1, 1⟩, ⟨3, 2⟩⟩⟩] }

/-- A caller's vertex buffer that already holds `2 ^ 32` vertices. -/
def big_buffer : List (gl.Vertex Int) :=
  List.replicate (2 ^ 32) ⟨⟨0, 0, 0⟩, ⟨0, 0, 0⟩, ⟨0, 0⟩⟩

/-- A material with diffuse color `(1,1,1)`. -/
def white_material : aiMaterial Int := ⟨some ⟨1, 1, 1⟩⟩

/-- A material whose diffuse-color lookup fails. -/
def bare_material : aiMaterial Int := ⟨none⟩

/-- A mesh of one triangle, bound to material 0. -/
def mesh_a : aiMesh Int :=
  { mFaces := [⟨[0, 1, 2]⟩]
    mVertices := [⟨0, 0, 0⟩, ⟨1, 0, 0⟩, ⟨0, 1, 0⟩]
    mTextureCoords0 := some [⟨0, 0, 0⟩, ⟨1, 0, 0⟩, ⟨0, 1, 0⟩]
    mMaterialIndex := 0 }

/-- A second mesh of one triangle, with its own three vertices. -/
def mesh_b : aiMesh Int :=
  { mesh_a with mVertices := [⟨5, 0, 0⟩, ⟨6, 0, 0⟩, ⟨5, 1, 0⟩] }

/-- The triangle of `mesh_b`, bound to material 1. -/
def mesh_c : aiMesh Int :=
  { mesh_b with mMaterialIndex := 1 }

/-- A mesh holding one line segment: a face of 2 indices. -/
def line_mesh : aiMesh Int :=
  { mFaces := [⟨[0, 1]⟩]
    mVertices := [⟨0, 0, 0⟩, ⟨1, 0, 0⟩]
    mTextureCoords0 := some [⟨0, 0, 0⟩, ⟨1, 0, 0⟩]
    mMaterialIndex := 0 }

/-- Two meshes sharing material 0. -/
def two_meshes : aiScene Int := ⟨[mesh_a, mesh_b], [white_material]⟩

/-- One mesh with a 2-index face. -/
def line_scene : aiScene Int := ⟨[line_mesh], [white_material]⟩

/-- A good mesh followed by one bound to a material without diffuse color. -/
def late_failure : aiScene Int := ⟨[mesh_a, mesh_c], [white_material, bare_material]⟩

/-- The triangle of `mesh_a` without texture channel 0 (a null
`mTextureCoords[0]`). -/
def uvless_mesh : aiMesh Int :=
  { mesh_a with mTextureCoords0 := none }

/-- One triangle without texture coordinates, bound to a material that has a
diffuse color. -/
def uvless_scene : aiScene Int := ⟨[uvless_mesh], [white_material]⟩

/-! ## Lemmas on `parse_model` -/

theorem to_unsigned_of_lt {n : Nat} (h : n < 2 ^ 32) : to_unsigned n = n := by
  unfold to_unsigned
  exact Nat.mod_eq_of_lt h

theorem make_vertex_of_in_range {S : Type} (p : Parsed S) (c : obj.FaceVertex)
    (h : CornerInRange p c) :
    ∃ pt uv, p.points[c.vertex_id]? = some pt ∧ p.uvs[c.uv_id]? = some uv ∧
      make_vertex p c = some ⟨⟨pt.x, pt.y, pt.z⟩, ⟨p.color.r, p.color.g, p.color.b⟩,
        ⟨uv.u, uv.v⟩⟩ := by
  obtain ⟨h1, h2⟩ := h
  refine ⟨p.points[c.vertex_id], p.uvs[c.uv_id], ?_, ?_, ?_⟩
  · exact List.getElem?_eq_getElem h1
  · exact List.getElem?_eq_getElem h2
  · unfold make_vertex
    rw [List.getElem?_eq_getElem h1, List.getElem?_eq_getElem h2]

theorem make_vertex_eq_none {S : Type} (p : Parsed S) (c : obj.FaceVertex)
    (h : ¬ CornerInRange p c) : make_vertex p c = none := by
  unfold make_vertex
  unfold CornerInRange at h
  by_cases h1 : c.vertex_id < p.points.length
  · have h2 : p.uvs.length ≤ c.uv_id := by
      by_contra hc
      exact h ⟨h1, Nat.lt_of_not_le hc⟩
    rw [List.getElem?_eq_none h2]
    cases p.points[c.vertex_id]? <;> rfl
  · rw [List.getElem?_eq_none (Nat.le_of_not_lt h1)]

theorem face_body_of_in_range {S : Type} (p : Parsed S) (b : Buffers S) (face : obj.Face)
    (h : FaceInRange p face) :
    ∃ v0 v1 v2, make_vertex p face.vertices.a0 = some v0 ∧
      make_vertex p face.vertices.a1 = some v1 ∧ make_vertex p face.vertices.a2 = some v2 ∧
      face_body p b face
        = some ⟨b.elements ++ [tail_element b.vertices.length], b.vertices ++ [v0, v1, v2]⟩ := by
  obtain ⟨h0, h1, h2⟩ := h
  obtain ⟨_, _, _, _, e0⟩ := make_vertex_of_in_range p _ h0
  obtain ⟨_, _, _, _, e1⟩ := make_vertex_of_in_range p _ h1
  obtain ⟨_, _, _, _, e2⟩ := make_vertex_of_in_range p _ h2
  refine ⟨_, _, _, e0, e1, e2, ?_⟩
  unfold face_body
  rw [e0, e1, e2]
  simp [tail_element]

theorem face_body_eq_none {S : Type} (p : Parsed S) (b : Buffers S) (face : obj.Face)
    (h : ¬ FaceInRange p face) : face_body p b face = none := by
  unfold face_body
  unfold FaceInRange at h
  by_cases h0 : CornerInRange p face.vertices.a0
  · by_cases h1 : CornerInRange p face.vertices.a1
    · have h2 : ¬ CornerInRange p face.vertices.a2 := fun h2 => h ⟨h0, h1, h2⟩
      rw [make_vertex_eq_none p _ h2]
      cases make_vertex p face.vertices.a0 <;> cases make_vertex p face.vertices.a1 <;> rfl
    · rw [make_vertex_eq_none p _ h1]
      cases make_vertex p face.vertices.a0 <;> rfl
  · rw [make_vertex_eq_none p _ h0]

/-- The whole face loop on in-range faces: what it appends to both buffers. -/
theorem face_loop_spec {S : Type} (p : Parsed S) :
    ∀ (faces : List obj.Face) (b : Buffers S), (∀ face ∈ faces, FaceInRange p face) →
      ∃ te tv, face_loop p faces b = some ⟨b.elements ++ te, b.vertices ++ tv⟩ ∧
        te.length = faces.length ∧ tv.length = 3 * faces.length ∧
        ∀ k face, faces[k]? = some face →
          te[k]? = some (tail_element (b.vertices.length + 3 * k)) ∧
          tv[3 * k]? = make_vertex p face.vertices.a0 ∧
          tv[3 * k + 1]? = make_vertex p face.vertices.a1 ∧
          tv[3 * k + 2]? = make_vertex p face.vertices.a2 := by
  intro faces
  induction faces with
  | nil =>
    intro b _
    exact ⟨[], [], by simp [face_loop], rfl, rfl, by simp⟩
  | cons face rest ih =>
    intro b h
    obtain ⟨v0, v1, v2, e0, e1, e2, hb⟩ :=
      face_body_of_in_range p b face (h face (List.mem_cons_self _ _))
    obtain ⟨te, tv, hl, hte, htv, hk⟩ :=
      ih ⟨b.elements ++ [tail_element b.vertices.length], b.vertices ++ [v0, v1, v2]⟩
        (fun f hf => h f (List.mem_cons_of_mem _ hf))
    refine ⟨tail_element b.vertices.length :: te, v0 :: v1 :: v2 :: tv, ?_, ?_, ?_, ?_⟩
    · simp only [face_loop, hb, hl]
      simp
    · simp [hte]
    · simp [htv]; omega
    · intro k f hf
      cases k with
      | zero =>
        simp only [List.getElem?_cons_zero, Option.some.injEq] at hf
        subst hf
        simp [e0, e1, e2]
      | succ k =>
        simp only [List.getElem?_cons_succ] at hf
        obtain ⟨a, c0, c1, c2⟩ := hk k f hf
        have h3 : 3 * (k + 1) = 3 * k + 3 := by omega
        refine ⟨?_, ?_, ?_, ?_⟩
        · rw [List.getElem?_cons_succ, a]
          simp only [List.length_append, List.length_cons, List.length_nil]
          congr 2
          omega
        · rw [h3]; simpa using c0
        · rw [h3]; simpa using c1
        · rw [h3]; simpa using c2

theorem face_loop_undefined {S : Type} (p : Parsed S) :
    ∀ (faces : List obj.Face) (b : Buffers S), (¬ ∀ face ∈ faces, FaceInRange p face) →
      face_loop p faces b = none := by
  intro faces
  induction faces with
  | nil => intro b h; exact absurd (by simp) h
  | cons face rest ih =>
    intro b h
    by_cases hf : FaceInRange p face
    · obtain ⟨v0, v1, v2, _, _, _, hb⟩ := face_body_of_in_range p b face hf
      simp only [face_loop, hb]
      apply ih
      intro hr
      apply h
      intro f hfm
      rcases List.mem_cons.mp hfm with rfl | hm
      · exact hf
      · exact hr f hm
    · simp only [face_loop, face_body_eq_none p b face hf]

/-- The outcome of `parse_model` on an in-range pool. -/
theorem parse_model_spec {S : Type} (p : Parsed S) (elements : List gl.Element)
    (vertices : List (gl.Vertex S)) (hr : InRange p) :
    ∃ te tv, parse_model p elements vertices
        = Outcome.threw "Exit!" (elements ++ te) (vertices ++ tv) ∧
      te.length = p.faces.length ∧ tv.length = 3 * p.faces.length ∧
      ∀ k face, p.faces[k]? = some face →
        te[k]? = some (tail_element (vertices.length + 3 * k)) ∧
        tv[3 * k]? = make_vertex p face.vertices.a0 ∧
        tv[3 * k + 1]? = make_vertex p face.vertices.a1 ∧
        tv[3 * k + 2]? = make_vertex p face.vertices.a2 := by
  obtain ⟨te, tv, hl, hte, htv, hk⟩ := face_loop_spec p p.faces ⟨elements, vertices⟩ hr
  refine ⟨te, tv, ?_, hte, htv, hk⟩
  simp only [parse_model, hl]

theorem at_cases {α : Type} (a : Array3 α) (i : Nat) (c : α) (h : a.at? i = some c) :
    (i = 0 ∧ c = a.a0) ∨ (i = 1 ∧ c = a.a1) ∨ (i = 2 ∧ c = a.a2) := by
  match i, h with
  | 0, h => left; simp [Array3.at?] at h; exact ⟨rfl, h.symm⟩
  | 1, h => right; left; simp [Array3.at?] at h; exact ⟨rfl, h.symm⟩
  | 2, h => right; right; simp [Array3.at?] at h; exact ⟨rfl, h.symm⟩
  | _ + 3, h => simp [Array3.at?] at h

/-! ## Claims on `parse_model` -/

/-- C1: with all face indices in range and an empty vertex buffer on entry,
output vertex `3 * k + i` of `parse_model` is built from
`points[faces[k].vertices[i].vertex_id]`, the parsed color and
`uvs[faces[k].vertices[i].uv_id]`: faces and corners appear in input order. -/
theorem parse_model_vertices_in_input_order {S : Type} (p : Parsed S) (hr : InRange p) :
    ∃ e v, parse_model p [] [] = Outcome.threw "Exit!" e v ∧
      ∀ k i face c, p.faces[k]? = some face → face.vertices.at? i = some c →
        ∃ pt uv, p.points[c.vertex_id]? = some pt ∧ p.uvs[c.uv_id]? = some uv ∧
          v[3 * k + i]? = some ⟨⟨pt.x, pt.y, pt.z⟩, ⟨p.color.r, p.color.g, p.color.b⟩,
            ⟨uv.u, uv.v⟩⟩ := by
  obtain ⟨te, tv, ho, _, _, hk⟩ := parse_model_spec p [] [] hr
  refine ⟨[] ++ te, [] ++ tv, ho, ?_⟩
  intro k i face c hface hc
  have hmem : face ∈ p.faces := List.getElem?_mem hface
  obtain ⟨h0, h1, h2⟩ := hr face hmem
  obtain ⟨_, c0, c1, c2⟩ := hk k face hface
  simp only [List.nil_append]
  rcases at_cases _ _ _ hc with ⟨rfl, rfl⟩ | ⟨rfl, rfl⟩ | ⟨rfl, rfl⟩
  · obtain ⟨pt, uv, hp, hu, hm⟩ := make_vertex_of_in_range p _ h0
    exact ⟨pt, uv, hp, hu, by rw [Nat.add_zero, c0, hm]⟩
  · obtain ⟨pt, uv, hp, hu, hm⟩ := make_vertex_of_in_range p _ h1
    exact ⟨pt, uv, hp, hu, by rw [c1, hm]⟩
  · obtain ⟨pt, uv, hp, hu, hm⟩ := make_vertex_of_in_range p _ h2
    exact ⟨pt, uv, hp, hu, by rw [c2, hm]⟩

/-- C1, at the triangle of the spec: the run yields exactly the three
(position, color, uv) combinations in input order. -/
theorem parse_model_vertices_in_input_order_witness :
    InRange triangle ∧
    (∃ e v, parse_model triangle [] [] = Outcome.threw "Exit!" e v ∧
      ∀ k i face c, triangle.faces[k]? = some face → face.vertices.at? i = some c →
        ∃ pt uv, triangle.points[c.vertex_id]? = some pt ∧ triangle.uvs[c.uv_id]? = some uv ∧
          v[3 * k + i]? = some ⟨⟨pt.x, pt.y, pt.z⟩,
            ⟨triangle.color.r, triangle.color.g, triangle.color.b⟩, ⟨uv.u, uv.v⟩⟩) ∧
    parse_model triangle [] [] = Outcome.threw "Exit!" [⟨⟨2, 1, 0⟩⟩]
      [⟨⟨0, 0, 0⟩, ⟨1, 1, 1⟩, ⟨0, 0⟩⟩, ⟨⟨1, 0, 0⟩, ⟨1, 1, 1⟩, ⟨1, 0⟩⟩,
        ⟨⟨0, 1, 0⟩, ⟨1, 1, 1⟩, ⟨0, 1⟩⟩] :=
  ⟨by decide, parse_model_vertices_in_input_order triangle (by decide), by rfl⟩

/-- C2: for a well-formed pool with `F` faces and empty buffers on entry,
`parse_model` leaves exactly `3 * F` vertices and `F` triangle-index records
in the output buffers. -/
theorem parse_model_counts {S : Type} (p : Parsed S) (hr : InRange p) :
    ∃ e v, parse_model p [] [] = Outcome.threw "Exit!" e v ∧
      v.length = 3 * p.faces.length ∧ e.length = p.faces.length := by
  obtain ⟨te, tv, ho, hte, htv, _⟩ := parse_model_spec p [] [] hr
  exact ⟨[] ++ te, [] ++ tv, ho, by simpa using htv, by simpa using hte⟩

/-- C2, at two faces with identical indices: six vertices, two records. -/
theorem parse_model_counts_witness :
    InRange doubled ∧
    (∃ e v, parse_model doubled [] [] = Outcome.threw "Exit!" e v ∧
      v.length = 3 * doubled.faces.length ∧ e.length = doubled.faces.length) ∧
    doubled.faces.length = 2 :=
  ⟨by decide, parse_model_counts doubled (by decide), by rfl⟩

/-- C3, as stated, fails: with `2 ^ 32` vertices in the buffer on entry the
record of the one face is `(2, 1, 0)`, not `(n - 1, n - 2, n - 3)` for the
buffer length `n = 2 ^ 32 + 3`. -/
theorem parse_model_element_wraps :
    InRange triangle ∧
    ∃ e v, parse_model triangle [] big_buffer = Outcome.threw "Exit!" e v ∧
      v.length = 2 ^ 32 + 3 ∧ e[0]? = some ⟨⟨2, 1, 0⟩⟩ ∧
      e[0]? ≠ some ⟨⟨v.length - 1, v.length - 2, v.length - 3⟩⟩ := by
  refine ⟨by decide, ?_⟩
  obtain ⟨te, tv, ho, hte, htv, hk⟩ := parse_model_spec triangle [] big_buffer (by decide)
  have hlen : big_buffer.length = 2 ^ 32 := List.length_replicate _ _
  have hv : (big_buffer ++ tv).length = 2 ^ 32 + 3 := by
    rw [List.length_append, hlen, htv]; rfl
  have h0 := (hk 0 _ rfl).1
  rw [hlen] at h0
  have he : ([] ++ te)[0]? = some (⟨⟨2, 1, 0⟩⟩ : gl.Element) := by
    rw [List.nil_append, h0]; rfl
  refine ⟨[] ++ te, big_buffer ++ tv, ho, hv, he, ?_⟩
  rw [he, hv]
  decide

/-- C3, amended: the record appended for face `k` holds the last three
positions of the vertex buffer, highest first, each reduced modulo `2 ^ 32`:
with `n` the buffer length right after the three vertices of face `k` were
appended it is `((n - 1) % 2 ^ 32, (n - 2) % 2 ^ 32, (n - 3) % 2 ^ 32)`, and
it is `(n - 1, n - 2, n - 3)` whenever `n ≤ 2 ^ 32`.  Position `n - 1` holds
the vertex of corner 2, `n - 3` that of corner 0, and `n` is at most the
final vertex count. -/
theorem parse_model_element_is_reversed_tail {S : Type} (p : Parsed S)
    (elements : List gl.Element) (vertices : List (gl.Vertex S)) (hr : InRange p) :
    ∃ e v, parse_model p elements vertices = Outcome.threw "Exit!" e v ∧
      v.length = vertices.length + 3 * p.faces.length ∧
      ∀ k face n, p.faces[k]? = some face → n = vertices.length + 3 * (k + 1) →
        e[elements.length + k]?
          = some ⟨⟨(n - 1) % 2 ^ 32, (n - 2) % 2 ^ 32, (n - 3) % 2 ^ 32⟩⟩ ∧
        (n ≤ 2 ^ 32 → e[elements.length + k]? = some ⟨⟨n - 1, n - 2, n - 3⟩⟩) ∧
        n ≤ v.length ∧
        ∃ v0 v1 v2, make_vertex p face.vertices.a0 = some v0 ∧
          make_vertex p face.vertices.a1 = some v1 ∧
          make_vertex p face.vertices.a2 = some v2 ∧
          v[n - 1]? = some v2 ∧ v[n - 2]? = some v1 ∧ v[n - 3]? = some v0 := by
  obtain ⟨te, tv, ho, hte, htv, hk⟩ := parse_model_spec p elements vertices hr
  refine ⟨elements ++ te, vertices ++ tv, ho, by rw [List.length_append, htv], ?_⟩
  intro k face n hface hn
  have hlt : k < p.faces.length := (List.getElem?_eq_some.mp hface).1
  obtain ⟨a, c0, c1, c2⟩ := hk k face hface
  obtain ⟨h0, h1, h2⟩ := hr face (List.getElem?_mem hface)
  obtain ⟨_, _, _, _, m0⟩ := make_vertex_of_in_range p _ h0
  obtain ⟨_, _, _, _, m1⟩ := make_vertex_of_in_range p _ h1
  obtain ⟨_, _, _, _, m2⟩ := make_vertex_of_in_range p _ h2
  have e1 : n - 1 = vertices.length + (3 * k + 2) := by omega
  have e2 : n - 2 = vertices.length + (3 * k + 1) := by omega
  have e3 : n - 3 = vertices.length + 3 * k := by omega
  have hrec : (elements ++ te)[elements.length + k]?
      = some ⟨⟨(n - 1) % 2 ^ 32, (n - 2) % 2 ^ 32, (n - 3) % 2 ^ 32⟩⟩ := by
    rw [List.getElem?_append_right (Nat.le_add_right _ _), Nat.add_sub_cancel_left, a, e1, e2,
      e3]
    rfl
  refine ⟨hrec, ?_, ?_, _, _, _, m0, m1, m2, ?_, ?_, ?_⟩
  · intro hsmall
    rw [hrec, Nat.mod_eq_of_lt (by omega), Nat.mod_eq_of_lt (by omega),
      Nat.mod_eq_of_lt (by omega)]
  · rw [List.length_append, htv]; omega
  · rw [e1, List.getElem?_append_right (Nat.le_add_right _ _), Nat.add_sub_cancel_left,
      c2, m2]
  · rw [e2, List.getElem?_append_right (Nat.le_add_right _ _), Nat.add_sub_cancel_left,
      c1, m1]
  · rw [e3, List.getElem?_append_right (Nat.le_add_right _ _), Nat.add_sub_cancel_left,
      c0, m0]

/-- C3, amended, at the triangle with empty buffers, where the record is
`(2, 1, 0)`. -/
theorem parse_model_element_is_reversed_tail_witness :
    InRange triangle ∧
    (∃ e v, parse_model triangle [] [] = Outcome.threw "Exit!" e v ∧
      v.length = ([] : List (gl.Vertex Int)).length + 3 * triangle.faces.length ∧
      ∀ k face n, triangle.faces[k]? = some face →
        n = ([] : List (gl.Vertex Int)).length + 3 * (k + 1) →
        e[([] : List gl.Element).length + k]?
          = some ⟨⟨(n - 1) % 2 ^ 32, (n - 2) % 2 ^ 32, (n - 3) % 2 ^ 32⟩⟩ ∧
        (n ≤ 2 ^ 32 → e[([] : List gl.Element).length + k]? = some ⟨⟨n - 1, n - 2, n - 3⟩⟩) ∧
        n ≤ v.length ∧
        ∃ v0 v1 v2, make_vertex triangle face.vertices.a0 = some v0 ∧
          make_vertex triangle face.vertices.a1 = some v1 ∧
          make_vertex triangle face.vertices.a2 = some v2 ∧
          v[n - 1]? = some v2 ∧ v[n - 2]? = some v1 ∧ v[n - 3]? = some v0) ∧
    parse_model triangle [] [] = Outcome.threw "Exit!" [⟨⟨2, 1, 0⟩⟩]
      [⟨⟨0, 0, 0⟩, ⟨1, 1, 1⟩, ⟨0, 0⟩⟩, ⟨⟨1, 0, 0⟩, ⟨1, 1, 1⟩, ⟨1, 0⟩⟩,
        ⟨⟨0, 1, 0⟩, ⟨1, 1, 1⟩, ⟨0, 1⟩⟩] :=
  ⟨by decide, parse_model_element_is_reversed_tail triangle [] [] (by decide), by rfl⟩

/-- C4: on a pool without faces `parse_model` leaves both buffers empty, but
the call ends in the exception "Exit!" instead of returning. -/
theorem parse_model_no_faces_throws {S : Type} (points : List (Point S))
    (uvs : List (obj.TextureCoords S)) (color : Color S) :
    parse_model ⟨points, uvs, [], color⟩ [] [] = Outcome.threw "Exit!" [] [] := by
  rfl

/-- C5: when some corner of some face is out of range, `parse_model` reads
`points[vertex_id]` or `uvs[uv_id]` outside the vector: no range check is
made and no error is raised by the code. -/
theorem parse_model_out_of_range_undefined {S : Type} (p : Parsed S)
    (elements : List gl.Element) (vertices : List (gl.Vertex S)) (h : ¬ InRange p) :
    parse_model p elements vertices = Outcome.undefined := by
  simp only [parse_model, face_loop_undefined p p.faces ⟨elements, vertices⟩ h]

/-- C5, at a face naming position 3 of a pool of 3 points. -/
theorem parse_model_out_of_range_undefined_witness :
    ¬ InRange dangling ∧ parse_model dangling [] [] = Outcome.undefined :=
  ⟨by decide, parse_model_out_of_range_undefined dangling [] [] (by decide)⟩

/-! ## Lemmas on `parse_model_fbx` -/

theorem make_element_of_le {face : aiFace} (h : face.mIndices.length ≤ 3) :
    make_element face = some (pad face) := by
  obtain ⟨l⟩ := face
  match l, h with
  | [], _ => rfl
  | [_], _ => rfl
  | [_, _], _ => rfl
  | [_, _, _], _ => rfl
  | _ :: _ :: _ :: _ :: _, h => simp at h

theorem make_element_of_gt {face : aiFace} (h : 3 < face.mIndices.length) :
    make_element face = none := by
  obtain ⟨l⟩ := face
  match l, h with
  | [], h => simp at h
  | [_], h => simp at h
  | [_, _], h => simp at h
  | [_, _, _], h => simp at h
  | _ :: _ :: _ :: _ :: _, _ => rfl

theorem fbx_face_loop_spec :
    ∀ (faces : List aiFace) (elements : List gl.Element),
      (∀ face ∈ faces, face.mIndices.length ≤ 3) →
      fbx_face_loop faces elements = some (elements ++ faces.map pad) := by
  intro faces
  induction faces with
  | nil => intro elements _; simp [fbx_face_loop]
  | cons face rest ih =>
    intro elements h
    simp only [fbx_face_loop, make_element_of_le (h face (List.mem_cons_self _ _))]
    rw [ih _ (fun f hf => h f (List.mem_cons_of_mem _ hf))]
    simp

theorem fbx_face_loop_extends :
    ∀ (faces : List aiFace) (elements elements' : List gl.Element),
      fbx_face_loop faces elements = some elements' → ∃ te, elements' = elements ++ te := by
  intro faces
  induction faces with
  | nil =>
    intro elements elements' h
    simp only [fbx_face_loop, Option.some.injEq] at h
    exact ⟨[], by simp [h]⟩
  | cons face rest ih =>
    intro elements elements' h
    simp only [fbx_face_loop] at h
    cases hm : make_element face with
    | none => simp [hm] at h
    | some e =>
      simp only [hm] at h
      obtain ⟨te, hte⟩ := ih _ _ h
      exact ⟨e :: te, by simp [hte]⟩

theorem extends_refl {S : Type} (b : Buffers S) : Extends b b :=
  ⟨⟨[], by simp⟩, ⟨[], by simp⟩⟩

theorem extends_trans {S : Type} {a b c : Buffers S} (h1 : Extends a b) (h2 : Extends b c) :
    Extends a c := by
  obtain ⟨⟨te1, he1⟩, ⟨tv1, hv1⟩⟩ := h1
  obtain ⟨⟨te2, he2⟩, ⟨tv2, hv2⟩⟩ := h2
  exact ⟨⟨te1 ++ te2, by rw [he2, he1, List.append_assoc]⟩,
    ⟨tv1 ++ tv2, by rw [hv2, hv1, List.append_assoc]⟩⟩

theorem traces_of_extends {S : Type} {a b : Buffers S} (h : Extends a b) (r : Step S)
    (hr : Traces b r) : Traces a r := by
  cases r with
  | next b' => exact extends_trans h hr
  | threw what b' => exact ⟨hr.1, extends_trans h hr.2⟩
  | undefined => trivial

theorem fbx_vertex_loop_loads {S : Type} (scene : aiScene S) (mesh : aiMesh S)
    (channel : List (aiVector3D S)) (color : aiColor3D S)
    (hch : mesh.mTextureCoords0 = some channel) (hcol : diffuse_of scene mesh = some color) :
    ∀ (pts : List (aiVector3D S)) (j : Nat) (b : Buffers S), j + pts.length ≤ channel.length →
      ∃ tv, fbx_vertex_loop scene mesh j pts b = Step.next ⟨b.elements, b.vertices ++ tv⟩ ∧
        tv.length = pts.length := by
  intro pts
  induction pts with
  | nil => intro j b _; exact ⟨[], by simp [fbx_vertex_loop], rfl⟩
  | cons point rest ih =>
    intro j b hj
    have hlt : j < channel.length := by simp at hj; omega
    unfold diffuse_of at hcol
    cases hmat : scene.mMaterials[mesh.mMaterialIndex]? with
    | none => simp [hmat] at hcol
    | some material =>
      simp only [hmat] at hcol
      obtain ⟨tv, htv, hlen⟩ := ih (j + 1)
        ⟨b.elements, b.vertices ++ [{ coord := ⟨point.x, point.y, point.z⟩
                                      color := ⟨color.r, color.g, color.b⟩
                                      uv := ⟨channel[j].x, channel[j].y⟩ }]⟩
        (by simp at hj ⊢; omega)
      refine ⟨{ coord := ⟨point.x, point.y, point.z⟩
                color := ⟨color.r, color.g, color.b⟩
                uv := ⟨channel[j].x, channel[j].y⟩ } :: tv, ?_, by simp [hlen]⟩
      simp only [fbx_vertex_loop, hch, List.getElem?_eq_getElem hlt, hmat, hcol, htv]
      simp

theorem fbx_vertex_loop_traces {S : Type} (scene : aiScene S) (mesh : aiMesh S) :
    ∀ (pts : List (aiVector3D S)) (j : Nat) (b : Buffers S),
      Traces b (fbx_vertex_loop scene mesh j pts b) := by
  intro pts
  induction pts with
  | nil => intro j b; simp only [fbx_vertex_loop, Traces]; exact extends_refl b
  | cons point rest ih =>
    intro j b
    simp only [fbx_vertex_loop]
    cases mesh.mTextureCoords0 with
    | none => trivial
    | some channel =>
      dsimp only
      cases channel[j]? with
      | none => trivial
      | some tex =>
        dsimp only
        cases scene.mMaterials[mesh.mMaterialIndex]? with
        | none => trivial
        | some material =>
          dsimp only
          cases material.diffuse with
          | none => exact ⟨rfl, extends_refl b⟩
          | some color =>
            exact traces_of_extends ⟨⟨[], by simp⟩, ⟨[_], rfl⟩⟩ _ (ih _ _)

theorem mesh_body_loads {S : Type} (scene : aiScene S) (b : Buffers S) (mesh : aiMesh S)
    (h : MeshLoads scene mesh) :
    ∃ tv, mesh_body scene b mesh
        = Step.next ⟨b.elements ++ mesh.mFaces.map pad, b.vertices ++ tv⟩ ∧
      tv.length = mesh.mVertices.length := by
  obtain ⟨hf, hch, hcol⟩ := h
  unfold mesh_body
  rw [fbx_face_loop_spec _ _ hf]
  cases hv : mesh.mVertices with
  | nil => exact ⟨[], by simp [fbx_vertex_loop], rfl⟩
  | cons point rest =>
    rw [hv] at hch hcol
    cases hc : mesh.mTextureCoords0 with
    | none => simp [hc] at hch
    | some channel =>
      rw [hc] at hch
      rcases hcol with h0 | hsome
      · simp at h0
      · obtain ⟨color, hcolor⟩ := Option.isSome_iff_exists.mp hsome
        obtain ⟨tv, htv, hlen⟩ := fbx_vertex_loop_loads scene mesh channel color hc hcolor
          (point :: rest) 0 ⟨b.elements ++ mesh.mFaces.map pad, b.vertices⟩
          (by simpa using hch)
        exact ⟨tv, htv, hlen⟩

theorem mesh_body_traces {S : Type} (scene : aiScene S) (b : Buffers S) (mesh : aiMesh S) :
    Traces b (mesh_body scene b mesh) := by
  unfold mesh_body
  cases hf : fbx_face_loop mesh.mFaces b.elements with
  | none => trivial
  | some elements =>
    obtain ⟨te, hte⟩ := fbx_face_loop_extends _ _ _ hf
    exact traces_of_extends ⟨⟨te, hte⟩, ⟨[], by simp⟩⟩ _ (fbx_vertex_loop_traces _ _ _ _ _)

theorem mesh_loop_loads {S : Type} (scene : aiScene S) :
    ∀ (meshes : List (aiMesh S)) (b : Buffers S), (∀ mesh ∈ meshes, MeshLoads scene mesh) →
      ∃ tv, mesh_loop scene meshes b
          = Step.next ⟨b.elements ++ (all_faces meshes).map pad, b.vertices ++ tv⟩ ∧
        tv.length = vertex_count meshes := by
  intro meshes
  induction meshes with
  | nil => intro b _; exact ⟨[], by simp [mesh_loop, all_faces], rfl⟩
  | cons mesh rest ih =>
    intro b h
    obtain ⟨tv1, h1, l1⟩ := mesh_body_loads scene b mesh (h mesh (List.mem_cons_self _ _))
    obtain ⟨tv2, h2, l2⟩ := ih ⟨b.elements ++ mesh.mFaces.map pad, b.vertices ++ tv1⟩
      (fun m hm => h m (List.mem_cons_of_mem _ hm))
    refine ⟨tv1 ++ tv2, ?_, ?_⟩
    · simp only [mesh_loop, h1, h2]
      simp [all_faces]
    · simp [vertex_count, l1, l2]

theorem mesh_loop_traces {S : Type} (scene : aiScene S) :
    ∀ (meshes : List (aiMesh S)) (b : Buffers S), Traces b (mesh_loop scene meshes b) := by
  intro meshes
  induction meshes with
  | nil => intro b; simp only [mesh_loop, Traces]; exact extends_refl b
  | cons mesh rest ih =>
    intro b
    have hb := mesh_body_traces scene b mesh
    simp only [mesh_loop]
    cases hm : mesh_body scene b mesh with
    | next b' =>
      rw [hm] at hb
      exact traces_of_extends hb _ (ih b')
    | threw what b' => rw [hm] at hb; exact hb
    | undefined => trivial

/-- The outcome of `parse_model_fbx` on a scene all of whose meshes load. -/
theorem parse_model_fbx_spec {S : Type} (scene : aiScene S) (elements : List gl.Element)
    (vertices : List (gl.Vertex S)) (h : SceneLoads scene) :
    ∃ tv, parse_model_fbx (Except.ok scene) elements vertices
        = Outcome.threw "Exit!" (elements ++ (all_faces scene.mMeshes).map pad)
            (vertices ++ tv) ∧
      tv.length = vertex_count scene.mMeshes := by
  obtain ⟨tv, hl, hlen⟩ := mesh_loop_loads scene scene.mMeshes ⟨elements, vertices⟩ h
  exact ⟨tv, by simp only [parse_model_fbx, hl], hlen⟩

/-- Every exception leaving `parse_model_fbx` on an imported scene is one of
the two the routine raises itself, and the buffers have only grown. -/
theorem parse_model_fbx_threw {S : Type} (scene : aiScene S) (elements : List gl.Element)
    (vertices : List (gl.Vertex S)) (what : String) (e : List gl.Element)
    (v : List (gl.Vertex S))
    (h : parse_model_fbx (Except.ok scene) elements vertices = Outcome.threw what e v) :
    (what = "Exit!" ∨ what = "Error accesssing diffuse color of a material!") ∧
      (∃ te, e = elements ++ te) ∧ ∃ tv, v = vertices ++ tv := by
  have ht := mesh_loop_traces scene scene.mMeshes ⟨elements, vertices⟩
  simp only [parse_model_fbx] at h
  cases hm : mesh_loop scene scene.mMeshes ⟨elements, vertices⟩ with
  | next b =>
    rw [hm] at ht h
    simp only [Outcome.threw.injEq] at h
    obtain ⟨hw, he, hv⟩ := h
    obtain ⟨⟨te, hte⟩, ⟨tv, htv⟩⟩ := ht
    exact ⟨Or.inl hw.symm, ⟨te, by rw [← he, hte]⟩, ⟨tv, by rw [← hv, htv]⟩⟩
  | threw w b =>
    rw [hm] at ht h
    simp only [Outcome.threw.injEq] at h
    obtain ⟨hw, he, hv⟩ := h
    obtain ⟨hmsg, ⟨te, hte⟩, ⟨tv, htv⟩⟩ := ht
    exact ⟨Or.inr (by rw [← hw, hmsg]), ⟨te, by rw [← he, hte]⟩, ⟨tv, by rw [← hv, htv]⟩⟩
  | undefined =>
    rw [hm] at h
    simp at h

theorem mesh_loop_append {S : Type} (scene : aiScene S) :
    ∀ (l1 l2 : List (aiMesh S)) (b b1 : Buffers S), mesh_loop scene l1 b = Step.next b1 →
      mesh_loop scene (l1 ++ l2) b = mesh_loop scene l2 b1 := by
  intro l1
  induction l1 with
  | nil =>
    intro l2 b b1 h
    simp only [mesh_loop, Step.next.injEq] at h
    rw [List.nil_append, h]
  | cons m rest ih =>
    intro l2 b b1 h
    simp only [mesh_loop, List.cons_append] at h ⊢
    cases hm : mesh_body scene b m with
    | next b2 =>
      simp only [hm] at h ⊢
      exact ih l2 b2 b1 h
    | threw w b2 => simp [hm] at h
    | undefined => simp [hm] at h

/-- The first mesh whose lookup fails: the records of its faces are appended,
none of its vertices is. -/
theorem mesh_body_first_failure {S : Type} (scene : aiScene S) (b : Buffers S)
    (mesh : aiMesh S) (channel : List (aiVector3D S))
    (hfaces : ∀ face ∈ mesh.mFaces, face.mIndices.length ≤ 3)
    (hvert : mesh.mVertices ≠ []) (hch : mesh.mTextureCoords0 = some channel)
    (hne : channel ≠ []) (hfail : LookupFails scene mesh) :
    mesh_body scene b mesh
      = Step.threw "Error accesssing diffuse color of a material!"
          ⟨b.elements ++ mesh.mFaces.map pad, b.vertices⟩ := by
  obtain ⟨material, hmat, hnone⟩ := hfail
  unfold mesh_body
  rw [fbx_face_loop_spec _ _ hfaces]
  cases hp : mesh.mVertices with
  | nil => exact absurd hp hvert
  | cons point rest =>
    cases hc : channel with
    | nil => exact absurd hc hne
    | cons tex more =>
      simp only [fbx_vertex_loop, hch, hc, hmat, hnone, List.getElem?_cons_zero]

/-! ## Claims on `parse_model_fbx` -/

/-- C6: in a scene of two triangles the record of the second mesh is
`(0, 1, 2)`, the positions of the vertices of the first mesh; the vertices of
the second mesh sit at positions 3, 4, 5 of the output buffer. -/
theorem parse_model_fbx_second_mesh_indices :
    parse_model_fbx (Except.ok two_meshes) [] []
      = Outcome.threw "Exit!" [⟨⟨0, 1, 2⟩⟩, ⟨⟨0, 1, 2⟩⟩]
          [⟨⟨0, 0, 0⟩, ⟨1, 1, 1⟩, ⟨0, 0⟩⟩, ⟨⟨1, 0, 0⟩, ⟨1, 1, 1⟩, ⟨1, 0⟩⟩,
            ⟨⟨0, 1, 0⟩, ⟨1, 1, 1⟩, ⟨0, 1⟩⟩, ⟨⟨5, 0, 0⟩, ⟨1, 1, 1⟩, ⟨0, 0⟩⟩,
            ⟨⟨6, 0, 0⟩, ⟨1, 1, 1⟩, ⟨1, 0⟩⟩, ⟨⟨5, 1, 0⟩, ⟨1, 1, 1⟩, ⟨0, 1⟩⟩] ∧
    two_meshes.mMeshes[1]? = some mesh_b ∧ mesh_b.mFaces = [⟨[0, 1, 2]⟩] ∧
    mesh_b.mVertices[0]? = some ⟨5, 0, 0⟩ ∧ mesh_a.mVertices[0]? = some ⟨0, 0, 0⟩ := by
  refine ⟨by rfl, by rfl, by rfl, by rfl, by rfl⟩

/-- C7, as stated, fails: a face of 2 indices raises no error; the record
`(0, 1, 0)`, padded with a zero, is appended and the run goes on to "Exit!". -/
theorem parse_model_fbx_line_face_is_padded :
    (∃ mesh ∈ line_scene.mMeshes, ∃ face ∈ mesh.mFaces, face.mIndices.length = 2) ∧
    parse_model_fbx (Except.ok line_scene) [] []
      = Outcome.threw "Exit!" [⟨⟨0, 1, 0⟩⟩]
          [⟨⟨0, 0, 0⟩, ⟨1, 1, 1⟩, ⟨0, 0⟩⟩, ⟨⟨1, 0, 0⟩, ⟨1, 1, 1⟩, ⟨1, 0⟩⟩] := by
  refine ⟨by decide, by rfl⟩

/-- C7, amended: `parse_model_fbx` makes no index-count check.  When every
mesh loads (faces of at most 3 indices), each face gets exactly one record,
its indices followed by zeros, and the run ends in "Exit!"; and no run ends
in an exception other than "Exit!" and the one of the diffuse-color lookup. -/
theorem parse_model_fbx_pads_short_faces {S : Type} (scene : aiScene S)
    (elements : List gl.Element) (vertices : List (gl.Vertex S)) :
    (SceneLoads scene →
      ∃ tv, parse_model_fbx (Except.ok scene) elements vertices
        = Outcome.threw "Exit!" (elements ++ (all_faces scene.mMeshes).map pad)
            (vertices ++ tv)) ∧
    ∀ what e v, parse_model_fbx (Except.ok scene) elements vertices = Outcome.threw what e v →
      what = "Exit!" ∨ what = "Error accesssing diffuse color of a material!" := by
  constructor
  · intro h
    obtain ⟨tv, hs, _⟩ := parse_model_fbx_spec scene elements vertices h
    exact ⟨tv, hs⟩
  · intro what e v h
    exact (parse_model_fbx_threw scene elements vertices what e v h).1

/-- C7, amended, at the scene with a 2-index face. -/
theorem parse_model_fbx_pads_short_faces_witness :
    SceneLoads line_scene ∧
    (∃ tv, parse_model_fbx (Except.ok line_scene) [] []
        = Outcome.threw "Exit!" ([] ++ (all_faces line_scene.mMeshes).map pad) ([] ++ tv)) ∧
    (all_faces line_scene.mMeshes).map pad = [⟨⟨0, 1, 0⟩⟩] :=
  ⟨by decide, (parse_model_fbx_pads_short_faces line_scene [] []).1 (by decide), by rfl⟩

/-- C9, as stated, fails: when the lookup fails on the second mesh, both
records and the three vertices of the first mesh are in the buffers, which
were empty on entry. -/
theorem parse_model_fbx_failure_leaves_records :
    parse_model_fbx (Except.ok late_failure) [] []
      = Outcome.threw "Error accesssing diffuse color of a material!"
          [⟨⟨0, 1, 2⟩⟩, ⟨⟨0, 1, 2⟩⟩]
          [⟨⟨0, 0, 0⟩, ⟨1, 1, 1⟩, ⟨0, 0⟩⟩, ⟨⟨1, 0, 0⟩, ⟨1, 1, 1⟩, ⟨1, 0⟩⟩,
            ⟨⟨0, 1, 0⟩, ⟨1, 1, 1⟩, ⟨0, 1⟩⟩] ∧
    parse_model_fbx (Except.ok late_failure) [] []
      ≠ Outcome.threw "Error accesssing diffuse color of a material!" [] [] := by
  refine ⟨by rfl, by decide⟩

/-- C9, amended: on an importer failure the buffers hold exactly what they
held on entry.  On any other exception they begin with what they held on
entry and nothing is rolled back: when the lookup fails on a mesh after
meshes that all load, the buffers hold in addition the records of all faces
of the earlier meshes and of the failing mesh, and the vertices of the
earlier meshes. -/
theorem parse_model_fbx_failure_buffers {S : Type} (elements : List gl.Element)
    (vertices : List (gl.Vertex S)) :
    (∀ error : String,
      parse_model_fbx (Except.error error) elements vertices
        = Outcome.threw error elements vertices) ∧
    (∀ (imported : Except String (aiScene S)) (what : String) (e : List gl.Element)
      (v : List (gl.Vertex S)),
      parse_model_fbx imported elements vertices = Outcome.threw what e v →
      (∃ te, e = elements ++ te) ∧ ∃ tv, v = vertices ++ tv) ∧
    ∀ (scene : aiScene S) (before after : List (aiMesh S)) (mesh : aiMesh S)
      (channel : List (aiVector3D S)),
      scene.mMeshes = before ++ mesh :: after → (∀ m ∈ before, MeshLoads scene m) →
      (∀ face ∈ mesh.mFaces, face.mIndices.length ≤ 3) → mesh.mVertices ≠ [] →
      mesh.mTextureCoords0 = some channel → channel ≠ [] → LookupFails scene mesh →
      ∃ tv, parse_model_fbx (Except.ok scene) elements vertices
          = Outcome.threw "Error accesssing diffuse color of a material!"
              (elements ++ (all_faces before).map pad ++ mesh.mFaces.map pad)
              (vertices ++ tv) ∧
        tv.length = vertex_count before := by
  refine ⟨fun _ => rfl, ?_, ?_⟩
  · intro imported what e v h
    cases imported with
    | error msg =>
      simp only [parse_model_fbx, Outcome.threw.injEq] at h
      exact ⟨⟨[], by simp [h.2.1]⟩, ⟨[], by simp [h.2.2]⟩⟩
    | ok scene => exact (parse_model_fbx_threw scene elements vertices what e v h).2
  · intro scene before after mesh channel hsplit hload hfaces hvert hch hne hfail
    obtain ⟨tv, hl, hlen⟩ := mesh_loop_loads scene before ⟨elements, vertices⟩ hload
    refine ⟨tv, ?_, hlen⟩
    have hb := mesh_body_first_failure scene
      ⟨elements ++ (all_faces before).map pad, vertices ++ tv⟩ mesh channel hfaces hvert hch
      hne hfail
    simp only [parse_model_fbx, hsplit, mesh_loop_append scene before (mesh :: after) _ _ hl,
      mesh_loop, hb]

/-- C9, amended, at an importer failure and at a lookup failing on the second
mesh. -/
theorem parse_model_fbx_failure_buffers_witness :
    parse_model_fbx (Except.error "bad file" : Except String (aiScene Int)) [] []
      = Outcome.threw "bad file" [] [] ∧
    late_failure.mMeshes = [mesh_a] ++ mesh_c :: [] ∧ (∀ m ∈ [mesh_a], MeshLoads late_failure m) ∧
    (∀ face ∈ mesh_c.mFaces, face.mIndices.length ≤ 3) ∧ mesh_c.mVertices ≠ [] ∧
    mesh_c.mTextureCoords0 = some [⟨0, 0, 0⟩, ⟨1, 0, 0⟩, ⟨0, 1, 0⟩] ∧
    LookupFails late_failure mesh_c ∧
    ∃ tv, parse_model_fbx (Except.ok late_failure) [] []
        = Outcome.threw "Error accesssing diffuse color of a material!"
            ([] ++ (all_faces [mesh_a]).map pad ++ mesh_c.mFaces.map pad) ([] ++ tv) ∧
      tv.length = vertex_count [mesh_a] :=
  ⟨(parse_model_fbx_failure_buffers [] []).1 "bad file", by rfl, by decide, by decide,
    by decide, by rfl, ⟨bare_material, by rfl, by rfl⟩,
    (parse_model_fbx_failure_buffers [] []).2.2 late_failure [mesh_a] [] mesh_c
      [⟨0, 0, 0⟩, ⟨1, 0, 0⟩, ⟨0, 1, 0⟩] (by rfl) (by decide) (by decide) (by decide) (by rfl)
      (by decide) ⟨bare_material, by rfl, by rfl⟩⟩

/-! ## Both routines -/

/-- C10, as stated, fails: the importer succeeds and the diffuse-color lookup
of the only mesh succeeds, but the mesh has no texture channel 0, so the
first pass of the vertex loop reads through a null pointer and the run never
reaches "Exit!". -/
theorem parse_model_fbx_without_uv_never_exits :
    (∀ mesh ∈ uvless_scene.mMeshes, (diffuse_of uvless_scene mesh).isSome = true) ∧
    (∀ mesh ∈ uvless_scene.mMeshes, ∀ face ∈ mesh.mFaces, face.mIndices.length = 3) ∧
    parse_model_fbx (Except.ok uvless_scene) [] [] = Outcome.undefined ∧
    ¬ ∃ e v, parse_model_fbx (Except.ok uvless_scene) [] [] = Outcome.threw "Exit!" e v := by
  refine ⟨by decide, by decide, by rfl, ?_⟩
  rintro ⟨e, v, h⟩
  have hu : parse_model_fbx (Except.ok uvless_scene) [] [] = Outcome.undefined := by rfl
  rw [hu] at h
  cases h

/-- C10, amended: neither routine ever returns normally; on an in-range pool
`parse_model`, and on a scene all of whose meshes load (faces of at most 3
indices, a texture-channel-0 entry for every vertex, lookups that succeed)
`parse_model_fbx`, ends by raising "Exit!" after appending one record per
face and all vertices to the buffers. -/
theorem parse_routines_end_in_exit {S : Type} :
    (∀ (p : Parsed S) (elements : List gl.Element) (vertices : List (gl.Vertex S)),
      InRange p →
      ∃ te tv, parse_model p elements vertices
          = Outcome.threw "Exit!" (elements ++ te) (vertices ++ tv) ∧
        te.length = p.faces.length ∧ tv.length = 3 * p.faces.length) ∧
    (∀ (scene : aiScene S) (elements : List gl.Element) (vertices : List (gl.Vertex S)),
      SceneLoads scene →
      ∃ te tv, parse_model_fbx (Except.ok scene) elements vertices
          = Outcome.threw "Exit!" (elements ++ te) (vertices ++ tv) ∧
        te.length = (all_faces scene.mMeshes).length ∧
        tv.length = vertex_count scene.mMeshes) ∧
    (∀ (p : Parsed S) (elements e : List gl.Element) (vertices v : List (gl.Vertex S)),
      parse_model p elements vertices ≠ Outcome.returned e v) ∧
    ∀ (imported : Except String (aiScene S)) (elements e : List gl.Element)
      (vertices v : List (gl.Vertex S)),
      parse_model_fbx imported elements vertices ≠ Outcome.returned e v := by
  refine ⟨?_, ?_, ?_, ?_⟩
  · intro p elements vertices hr
    obtain ⟨te, tv, ho, hte, htv, _⟩ := parse_model_spec p elements vertices hr
    exact ⟨te, tv, ho, hte, htv⟩
  · intro scene elements vertices h
    obtain ⟨tv, hs, hlen⟩ := parse_model_fbx_spec scene elements vertices h
    exact ⟨_, tv, hs, by simp, hlen⟩
  · intro p elements e vertices v
    unfold parse_model
    cases face_loop p p.faces ⟨elements, vertices⟩ <;> simp
  · intro imported elements e vertices v
    unfold parse_model_fbx
    cases imported with
    | error msg => simp
    | ok scene =>
      dsimp only
      cases mesh_loop scene scene.mMeshes ⟨elements, vertices⟩ <;> simp

/-- C10, amended, at the triangle and at the scene of two meshes. -/
theorem parse_routines_end_in_exit_witness :
    InRange triangle ∧ SceneLoads two_meshes ∧
    (∃ te tv, parse_model triangle [] [] = Outcome.threw "Exit!" ([] ++ te) ([] ++ tv) ∧
      te.length = triangle.faces.length ∧ tv.length = 3 * triangle.faces.length) ∧
    (∃ te tv, parse_model_fbx (Except.ok two_meshes) [] []
        = Outcome.threw "Exit!" ([] ++ te) ([] ++ tv) ∧
      te.length = (all_faces two_meshes.mMeshes).length ∧
      tv.length = vertex_count two_meshes.mMeshes) :=
  ⟨by decide, by decide,
    (parse_routines_end_in_exit).1 triangle [] [] (by decide),
    (parse_routines_end_in_exit).2.1 two_meshes [] [] (by decide)⟩

end parser
